import Mathlib

/-!
Verification of the cloaking link generator (`app.py`) against its
specification.  The Python source is shallowly embedded: pure helper
functions become Lean functions, the SQLite tables become lists and
lookup functions, Flask responses become an inductive response type,
and PIL image operations become an algebraic image type.  Python float
arithmetic in the image pipeline is modelled exactly over `ℚ`
(`int(...)` truncation is `pyInt`); at every concrete input used below
the float computation and the exact one agree.
-/

namespace App

/-! ### String helpers (models of the Python `str` methods used) -/

/-- Model of Python `s.startswith(pre)`. -/
def pyStartswith (s pre : String) : Bool :=
  pre.data.isPrefixOf s.data

/-- Model of Python `s.lower()` (agrees with `str.lower` on ASCII, which is
all the bot-signature matching needs). -/
def lowerChars (s : String) : List Char :=
  s.data.map Char.toLower

/-- Contiguous-sublist test: `needle` occurs inside `hay`.  Model of the
Python `in` operator on strings. -/
def infixOfB (needle hay : List Char) : Bool :=
  (List.range (hay.length + 1)).any (fun i => needle.isPrefixOf (hay.drop i))

/-- Model of Python `s.lstrip(c)` for a single strip character. -/
def lstripChar (s : String) (c : Char) : String :=
  String.mk (s.data.dropWhile (· = c))

/-- Value of a decimal digit character. -/
def digitVal (c : Char) : Option Nat :=
  if '0' ≤ c ∧ c ≤ '9' then some (c.toNat - 48) else none

/-- Parse a nonempty string of decimal digits. -/
def parseDigits (cs : List Char) : Option Nat :=
  if cs = [] then none
  else cs.foldl (fun acc c =>
    match acc, digitVal c with
    | some n, some d => some (10 * n + d)
    | _, _ => none) (some 0)

/-- Model of Python `int(str)`: optional surrounding spaces, optional sign,
decimal digits (underscore grouping is not modelled). `none` models the
`ValueError` raised on malformed input. -/
def pyParseInt (s : String) : Option Int :=
  let cs := s.data.dropWhile (· = ' ')
  let cs := (cs.reverse.dropWhile (· = ' ')).reverse
  match cs with
  | '-' :: rest => (parseDigits rest).map (fun n => -(n : Int))
  | '+' :: rest => (parseDigits rest).map (fun n => (n : Int))
  | rest => (parseDigits rest).map (fun n => (n : Int))

/-! ### Bot classification (`redirect_handler`, app.py lines 735-751) -/

/-- The fixed crawler-signature list from `redirect_handler`. -/
def botSignatures : List String :=
  ["facebookexternalhit", "facebot", "meta-externalagent",
   "meta-externalfetcher", "twitterbot", "linkedinbot", "slackbot",
   "whatsapp", "telegrambot"]

/-- Model of the `is_bot` computation: the request's User-Agent is
lowercased and each signature is tested as a substring. -/
def isBot (user_agent : String) : Bool :=
  botSignatures.any (fun bot => infixOfB bot.data (lowerChars user_agent))

/-! ### Link records and the cloaking resolver -/

/-- A row of the `links` table:
`(slug, dest_url, img_url, title, description, card_size, site_name,
button_text, og_url)`.  TEXT columns that the code guards with Python
truthiness are modelled as `Option String` (NULL = `none`; the empty
string is also falsy, see `truthyOpt`).  `dest_url` and `title` are
required at creation time. -/
structure LinkRow where
  dest_url : String
  img_url : Option String
  title : String
  description : Option String
  card_size : Option String
  site_name : Option String
  button_text : Option String
  og_url : Option String
deriving DecidableEq

/-- Python truthiness on an optional string column: NULL and `""` are falsy. -/
def truthyOpt (o : Option String) : Option String :=
  match o with
  | some s => if s = "" then none else some s
  | none => none

/-- Model of the `img_url` absolutization in the bot branch of
`redirect_handler` (app.py lines 754-761).  `request.host_url.rstrip('/')`
is `scheme ++ "://" ++ host` since a host never ends with a slash. -/
def absolutizeImg (img_url_col : Option String) (scheme host : String) : String :=
  let img := img_url_col.getD ""
  if img ≠ "" ∧ ¬ (pyStartswith img "http://" = true ∨ pyStartswith img "https://" = true) then
    if pyStartswith img "/" then scheme ++ "://" ++ host ++ img
    else (scheme ++ "://" ++ host) ++ "/" ++ lstripChar img '/'
  else img

/-- `request.base_url` for a visit to `/slug`. -/
def baseUrl (scheme host slug : String) : String :=
  scheme ++ "://" ++ host ++ "/" ++ slug

/-- The fields passed to `render_template('meta.html', ...)` in the bot
branch of `redirect_handler` (app.py lines 785-795). -/
structure MetaDoc where
  title : String
  description : String
  img : String
  url : String
  dest_url : String
  site_name : Option String
  card_size : String
  button_text : Option String
deriving DecidableEq

/-- Construction of the metadata document served to a crawler. -/
def buildMeta (link : LinkRow) (scheme host slug : String) : MetaDoc :=
  { title := link.title
    description := (truthyOpt link.description).getD ""
    img := absolutizeImg link.img_url scheme host
    url := (truthyOpt link.og_url).getD (baseUrl scheme host slug)
    dest_url := link.dest_url
    site_name := truthyOpt link.site_name
    card_size := (truthyOpt link.card_size).getD "large"
    button_text := truthyOpt link.button_text }

/-- An HTTP response of the GET handlers: a redirect with its code, a
rendered metadata document (status 200), a rendered page (status 200),
or a plain error body with its status. -/
inductive HResponse where
  | redirectR (code : Nat) (location : String)
  | metaDocR (d : MetaDoc)
  | pageR (name : String)
  | errR (status : Nat) (body : String)
deriving DecidableEq

/-- HTTP status of a response. -/
def HResponse.status : HResponse → Nat
  | .redirectR c _ => c
  | .metaDocR _ => 200
  | .pageR _ => 200
  | .errR s _ => s

/-- Model of `redirect_handler` (app.py lines 727-799).  The `links` table
is a lookup function; `scheme` and `host` reconstruct absolute URLs. -/
def redirect_handler (store : String → Option LinkRow)
    (slug user_agent scheme host : String) : HResponse :=
  match store slug with
  | some link =>
      if isBot user_agent then .metaDocR (buildMeta link scheme host slug)
      else .redirectR 302 link.dest_url
  | none => .errR 404 "Link not found"

/-! ### Percent-decoding (`urllib.parse.unquote`) and the 404 handler -/

/-- Value of a hexadecimal digit character. -/
def hexDigit (c : Char) : Option Nat :=
  if '0' ≤ c ∧ c ≤ '9' then some (c.toNat - 48)
  else if 'a' ≤ c ∧ c ≤ 'f' then some (c.toNat - 87)
  else if 'A' ≤ c ∧ c ≤ 'F' then some (c.toNat - 55)
  else none

/-- A token of the percent-decoding scan: either a literal character or a
decoded byte. -/
inductive UnqTok where
  | ch (c : Char)
  | byte (b : Nat)
deriving DecidableEq

/-- Byte carried by a token, if any. -/
def tokByte : UnqTok → Option Nat
  | .byte b => some b
  | .ch _ => none

/-- Percent scan: `%` followed by two hex digits becomes a byte, any other
`%` stays literal (as in `urllib.parse.unquote`).  Fuel-driven so the
definition reduces in the kernel; fuel is always instantiated with the
input length, which suffices since each step consumes a character. -/
def percentTokensF : Nat → List Char → List UnqTok
  | 0, _ => []
  | _, [] => []
  | fuel + 1, '%' :: rest =>
      match rest with
      | c1 :: c2 :: rest2 =>
          match hexDigit c1, hexDigit c2 with
          | some a, some b => .byte (16 * a + b) :: percentTokensF fuel rest2
          | _, _ => .ch '%' :: percentTokensF fuel (c1 :: c2 :: rest2)
      | _ => .ch '%' :: percentTokensF fuel rest
  | fuel + 1, c :: rest => .ch c :: percentTokensF fuel rest

/-- Lead-dependent range of the first continuation byte of a multi-byte
UTF-8 sequence (strict decoding, as CPython's utf-8 codec). -/
def utf8Cont1Range (lead : Nat) : Nat × Nat :=
  if lead = 0xE0 then (0xA0, 0xBF)
  else if lead = 0xED then (0x80, 0x9F)
  else if lead = 0xF0 then (0x90, 0xBF)
  else if lead = 0xF4 then (0x80, 0x8F)
  else (0x80, 0xBF)

/-- The replacement character U+FFFD. -/
def replChar : Char := Char.ofNat 0xFFFD

/-- Strict UTF-8 decoding of a byte run with replacement on malformed
input, modelling `bytes.decode('utf-8', errors='replace')`.  The number
of replacement characters emitted for a malformed sequence may differ
from CPython's maximal-subpart rule, but both only ever emit U+FFFD
there, which is all the Thai-range test below can observe. -/
def utf8DecodeF : Nat → List Nat → List Char
  | 0, _ => []
  | _, [] => []
  | fuel + 1, b :: rest =>
      if b < 0x80 then Char.ofNat b :: utf8DecodeF fuel rest
      else if 0xC2 ≤ b ∧ b ≤ 0xDF then
        match rest with
        | b2 :: rest2 =>
            if 0x80 ≤ b2 ∧ b2 ≤ 0xBF then
              Char.ofNat ((b - 0xC0) * 64 + (b2 - 0x80)) :: utf8DecodeF fuel rest2
            else replChar :: utf8DecodeF fuel rest
        | [] => [replChar]
      else if 0xE0 ≤ b ∧ b ≤ 0xEF then
        match rest with
        | b2 :: b3 :: rest3 =>
            if ((utf8Cont1Range b).1 ≤ b2 ∧ b2 ≤ (utf8Cont1Range b).2)
                ∧ (0x80 ≤ b3 ∧ b3 ≤ 0xBF) then
              Char.ofNat ((b - 0xE0) * 4096 + (b2 - 0x80) * 64 + (b3 - 0x80))
                :: utf8DecodeF fuel rest3
            else replChar :: utf8DecodeF fuel rest
        | _ => replChar :: utf8DecodeF fuel rest
      else if 0xF0 ≤ b ∧ b ≤ 0xF4 then
        match rest with
        | b2 :: b3 :: b4 :: rest4 =>
            if ((utf8Cont1Range b).1 ≤ b2 ∧ b2 ≤ (utf8Cont1Range b).2)
                ∧ (0x80 ≤ b3 ∧ b3 ≤ 0xBF) ∧ (0x80 ≤ b4 ∧ b4 ≤ 0xBF) then
              Char.ofNat ((b - 0xF0) * 262144 + (b2 - 0x80) * 4096
                  + (b3 - 0x80) * 64 + (b4 - 0x80)) :: utf8DecodeF fuel rest4
            else replChar :: utf8DecodeF fuel rest
        | _ => replChar :: utf8DecodeF fuel rest
      else replChar :: utf8DecodeF fuel rest

/-- Render the token stream: literal characters pass through, maximal runs
of bytes are UTF-8 decoded. -/
def renderToksF : Nat → List UnqTok → List Char
  | 0, _ => []
  | _, [] => []
  | fuel + 1, .ch c :: rest => c :: renderToksF fuel rest
  | fuel + 1, .byte b :: rest =>
      let run := rest.takeWhile (fun t => (tokByte t).isSome)
      let bytes := b :: run.filterMap tokByte
      utf8DecodeF bytes.length bytes
        ++ renderToksF fuel (rest.dropWhile (fun t => (tokByte t).isSome))

/-- Model of `urllib.parse.unquote(s)` (UTF-8, errors replaced). -/
def pyUnquote (s : String) : String :=
  let toks := percentTokensF s.data.length s.data
  String.mk (renderToksF toks.length toks)

/-- A character of the Thai block, `'฀' <= ch <= '๿'`. -/
def isThaiChar (c : Char) : Bool :=
  0xE00 ≤ c.toNat ∧ c.toNat ≤ 0xE7F

/-- Model of the `@app.errorhandler(404)` function `handle_not_found`
(app.py lines 76-88).  Flask invokes it only when no route matches the
request (or a handler aborts); `url_for('upload_page')` is `/upload`.
`request.path` arrives WSGI-decoded and the handler percent-decodes it a
second time. -/
def handle_not_found (path : String) : HResponse :=
  let decoded := pyUnquote path
  if decoded.data.any isThaiChar
      ∨ infixOfB "%e0%b8".data (path.data.map Char.toLower) then
    .redirectR 302 "/upload"
  else .errR 404 "Not found"

/-! ### Image records, expiry sweep, deletion (app.py lines 189-206, 590-650) -/

/-- A row of the `images` table. -/
structure ImageRecord where
  id : String
  filename : String
  content_type : String
  title : String
  description : String
  created_at : Int
  expires_at : Option Int
  delete_token : String
deriving DecidableEq

/-- The `WHERE expires_at IS NOT NULL AND expires_at <= now` condition of
the sweep, and of the expired branch of `api_delete_image`. -/
def isExpiredAt (r : ImageRecord) (now : Int) : Bool :=
  match r.expires_at with
  | none => false
  | some t => t ≤ now

/-- Model of `_cleanup_expired_images` on the table: every expired record
is deleted.  (The file removals are returned by `expiredFiles`.) -/
def cleanupDb (db : List ImageRecord) (now : Int) : List ImageRecord :=
  db.filter (fun r => ! isExpiredAt r now)

/-- Backing files removed by `_cleanup_expired_images`. -/
def expiredFiles (db : List ImageRecord) (now : Int) : List String :=
  (db.filter (fun r => isExpiredAt r now)).map (·.filename)

/-- `SELECT ... FROM images WHERE id=?` with `fetchone`. -/
def findImage (db : List ImageRecord) (image_id : String) : Option ImageRecord :=
  db.find? (fun r => r.id == image_id)

/-- `DELETE FROM images WHERE id=?`. -/
def deleteImageRows (db : List ImageRecord) (image_id : String) : List ImageRecord :=
  db.filter (fun r => ! (r.id == image_id))

/-- Model of `_is_image_not_expired` (app.py lines 205-206). -/
def _is_image_not_expired (expires_at : Option Int) (now : Int) : Bool :=
  match expires_at with
  | none => true
  | some t => now < t

/-- Model of the `/i/<image_id>` view (app.py lines 590-606): sweep, look
the record up, 404 if absent or expired, else render the page. -/
def image_view (db : List ImageRecord) (image_id : String) (now : Int) : HResponse :=
  match findImage (cleanupDb db now) image_id with
  | none => .errR 404 "Image not found"
  | some r =>
      if ¬ _is_image_not_expired r.expires_at now = true then .errR 404 "Image not found"
      else .pageR "image.html"

/-- A JSON API response: `{'ok': True}` or an error body with a status. -/
inductive ApiResp where
  | okTrue
  | errA (status : Nat) (msg : String)
deriving DecidableEq

/-- Result of the delete endpoint: the response, the resulting `images`
table, and the backing files removed from disk (sweep removals first). -/
structure DeleteOutcome where
  resp : ApiResp
  db : List ImageRecord
  removedFiles : List String
deriving DecidableEq

/-- Model of `api_delete_image` (app.py lines 609-650).  The two
`int(time.time())` calls are modelled by `now1` (the sweep at entry) and
`now2` (the in-handler expiry check); in a real execution `now1 ≤ now2`.
The form-field and JSON-body token sources collapse into one optional
value; `some ""` models a present-but-empty field (falsy in Python). -/
def api_delete_image (db : List ImageRecord) (image_id : String)
    (token : Option String) (now1 now2 : Int) : DeleteOutcome :=
  let db1 := cleanupDb db now1
  let removed1 := expiredFiles db now1
  match token with
  | none => ⟨.errA 400 "Missing delete_token", db1, removed1⟩
  | some tok =>
      if tok = "" then ⟨.errA 400 "Missing delete_token", db1, removed1⟩
      else
        match findImage db1 image_id with
        | none => ⟨.errA 404 "Not found", db1, removed1⟩
        | some r =>
            if isExpiredAt r now2 then
              ⟨.okTrue, deleteImageRows db1 image_id, removed1 ++ [r.filename]⟩
            else if ¬ tok = r.delete_token then
              ⟨.errA 403 "Invalid delete_token", db1, removed1⟩
            else
              ⟨.okTrue, deleteImageRows db1 image_id, removed1 ++ [r.filename]⟩

/-- The row inserted by `api_create_grid` (app.py lines 505-508): note the
literal `None` in the `expires_at` position. -/
def gridInsertRecord (image_id saved_name delete_token : String) (now : Int) :
    ImageRecord :=
  ⟨image_id, saved_name, "image/jpeg", "", "", now, none, delete_token⟩

/-- The `expires_at` computation of `api_upload` (app.py lines 540-548):
absent or empty `expiry_minutes` means no expiry, a malformed value is a
400 error (`.error`), a positive value sets `now + minutes * 60`. -/
def uploadExpiresAt (expiry_minutes_raw : Option String) (now : Int) :
    Except String (Option Int) :=
  match expiry_minutes_raw with
  | none => .ok none
  | some raw =>
      if raw = "" then .ok none
      else
        match pyParseInt raw with
        | none => .error "Invalid expiry_minutes"
        | some m => .ok (if 0 < m then some (now + m * 60) else none)

/-- The row inserted by `api_upload` (app.py lines 572-575). -/
def uploadInsertRecord (image_id saved_name content_type title description : String)
    (now : Int) (expires_at : Option Int) (delete_token : String) : ImageRecord :=
  ⟨image_id, saved_name, content_type, title, description, now, expires_at, delete_token⟩

/-! ### GET routing (werkzeug dispatch for the routes of app.py) -/

/-- Split a character list on a separator, like Python `str.split(sep)`. -/
def splitChars (sep : Char) (cs : List Char) : List (List Char) :=
  cs.foldr (fun c acc =>
    match acc with
    | [] => [[c]]
    | grp :: rest => if c = sep then [] :: grp :: rest else (c :: grp) :: rest) [[]]

/-- Which handler a GET request path dispatches to.  Fixed rules win over
the `/<slug>` converter rule; POST-only paths fall through to `/<slug>`
when single-segment (`/create`) and are 405 otherwise; anything that
matches no rule raises the routing `NotFound` that invokes
`handle_not_found`. -/
inductive RouteGET where
  | index
  | fixedPage (name : String)
  | imageView (image_id : String)
  | slugRoute (slug : String)
  | staticR
  | methodNA
  | noRoute
deriving DecidableEq

/-- GET dispatch over the decoded request path. -/
def dispatchGET (path : String) : RouteGET :=
  if path = "/" then .index
  else
    match splitChars '/' (path.data.drop 1) with
    | [seg] =>
        if seg = "generator".data ∨ seg = "compose".data ∨ seg = "upload".data then
          .fixedPage (String.mk seg)
        else if seg = [] then .noRoute
        else .slugRoute (String.mk seg)
    | [seg1, seg2] =>
        if seg1 = "i".data then .imageView (String.mk seg2)
        else if seg1 = "api".data
            ∧ (seg2 = "grid".data ∨ seg2 = "upload".data
                ∨ seg2 = "create-facebook-post".data) then .methodNA
        else if seg1 = "static".data then .staticR
        else .noRoute
    | seg1 :: seg2 :: rest =>
        if seg1 = "static".data then .staticR
        else if seg1 = "api".data ∧ seg2 = "images".data ∧ rest.length = 2
            ∧ rest.getLast? = some "delete".data then .methodNA
        else .noRoute
    | [] => .noRoute

/-- Model of the application's handling of a GET request: dispatch to the
matching view; a routing miss invokes the 404 error handler (a view that
itself RETURNS status 404, such as the slug handler's `'Link not found'`,
does NOT invoke it — Flask error handlers fire on raised exceptions only). -/
def handleGET (store : String → Option LinkRow) (imgdb : List ImageRecord)
    (path user_agent scheme host : String) (now : Int) : HResponse :=
  match dispatchGET path with
  | .index => .redirectR 302 "/upload"
  | .fixedPage name => .pageR name
  | .imageView image_id => image_view imgdb image_id now
  | .slugRoute slug => redirect_handler store slug user_agent scheme host
  | .staticR => .pageR "static"
  | .methodNA => .errR 405 "Method Not Allowed"
  | .noRoute => handle_not_found path

/-! ### The image pipeline (PIL operations, app.py lines 209-386)

Images are modelled algebraically: a term records the PIL calls that
produced it (`Image.new`, `resize`, `crop`, `paste`, overlay drawing),
and `pixelAt` interprets the constructors whose pixels are determined
(solid canvases and pastes); pixels of resized or source images are
unspecified (`none`). -/

/-- An RGB color. -/
abbrev Color := Nat × Nat × Nat

/-- Solid black, the padding color of the card canvas. -/
def blackC : Color := (0, 0, 0)

/-- Solid white, the grid canvas background. -/
def whiteC : Color := (255, 255, 255)

/-- Algebraic model of the PIL images the code builds. -/
inductive PImage where
  /-- an arbitrary decoded source image of the given dimensions -/
  | srcI (w h : Nat) (tag : Nat)
  /-- `Image.new('RGB', (w, h), c)` -/
  | uniform (w h : Nat) (c : Color)
  /-- `img.resize((w, h), LANCZOS)` -/
  | resizedI (i : PImage) (w h : Nat)
  /-- `img.crop((left, top, right, bottom))` -/
  | croppedI (i : PImage) (left top right bottom : Nat)
  /-- `base.paste(overlay, (x, y))` -/
  | pastedI (base : PImage) (overlay : PImage) (x y : Nat)
  /-- `draw.rectangle([x0, y0, x1, y1], fill=c)` -/
  | rectI (base : PImage) (x0 y0 x1 y1 : Int) (c : Color)
  /-- `draw.text((x, y), s, fill=c, font=font)` -/
  | textI (base : PImage) (x y : Int) (s : String) (c : Color)
deriving DecidableEq

/-- Width of an image. -/
def PImage.width : PImage → Nat
  | .srcI w _ _ => w
  | .uniform w _ _ => w
  | .resizedI _ w _ => w
  | .croppedI _ l _ r _ => r - l
  | .pastedI b _ _ _ => b.width
  | .rectI b _ _ _ _ _ => b.width
  | .textI b _ _ _ _ => b.width

/-- Height of an image. -/
def PImage.height : PImage → Nat
  | .srcI _ h _ => h
  | .uniform _ h _ => h
  | .resizedI _ _ h => h
  | .croppedI _ _ t _ b => b - t
  | .pastedI b _ _ _ => b.height
  | .rectI b _ _ _ _ _ => b.height
  | .textI b _ _ _ _ => b.height

/-- Color at pixel `(x, y)` where it is determined by the construction:
solid canvases everywhere, pastes by region.  Pixels of source, resized,
cropped and drawn-on images are unspecified. -/
def PImage.pixelAt : PImage → Nat → Nat → Option Color
  | .uniform w h c, x, y => if x < w ∧ y < h then some c else none
  | .pastedI b o px py, x, y =>
      if x < b.width ∧ y < b.height then
        if px ≤ x ∧ x < px + o.width ∧ py ≤ y ∧ y < py + o.height then
          o.pixelAt (x - px) (y - py)
        else b.pixelAt x y
      else none
  | _, _, _ => none

/-- Crop-window top for the landscape branch with a caller-supplied
offset (app.py lines 257-263): `center_y = h/2 - oy`,
`top = int(center_y - crop/2)` clamped into `[0, h - crop]`.  The value
truncated by `int(...)` is exactly the half-integer
`(h - 2*oy - crop) / 2` and Python `int` truncates toward zero, which is
integer T-division by 2 (`Int.tdiv`). -/
def cropTopWithOffset (h crop : Nat) (oy : Int) : Int :=
  let top0 := Int.tdiv ((h : Int) - 2 * oy - (crop : Int)) 2
  max 0 (min ((h : Int) - (crop : Int)) top0)

/-- Crop height of the landscape branch, `int(w / target_ratio)` for the
card ratio `1.91` — exactly `(w * 100) / 191` — clamped to the source
height (app.py lines 252-254). -/
def cardCropHeight (w h : Nat) : Nat :=
  min ((w * 100) / 191) h

/-- Crop-window top (app.py lines 256-269): centered when no offset. -/
def cropTop (h crop : Nat) : Option Int → Int
  | some oy => cropTopWithOffset h crop oy
  | none => Int.fdiv ((h : Int) - (crop : Int)) 2

/-- Model of the card-normalization `try` block of
`_save_uploaded_image_for_image_host` (app.py lines 226-276).  Square or
portrait images (`w/h <= 1`, also the `h = 0` fallback ratio `1.0`) are
scaled to height 628 and pasted centered on a black 1200x628 canvas;
landscape images are center-cropped to the 1.91:1 card ratio and resized
to 1200x628.  A zero-height image raises `ZeroDivisionError`, surfaced
as `.error` and caught by the enclosing handler.  Python float steps
(`w * (628 / h)`, `w / 1.91`) are modelled exactly over the rationals. -/
def normalizeCard (img : PImage) (offset_y : Option Int) : Except String PImage :=
  let w := img.width
  let h := img.height
  if h = 0 ∨ w ≤ h then
    if h = 0 then .error "ZeroDivisionError"
    else
      let new_w := (w * 628) / h
      let paste_x := (1200 - new_w) / 2
      .ok (.pastedI (.uniform 1200 628 blackC) (.resizedI img new_w 628) paste_x 0)
  else
    let target_h_crop := cardCropHeight w h
    let top := cropTop h target_h_crop offset_y
    let bottom := top + (target_h_crop : Int)
    .ok (.resizedI (.croppedI img 0 top.toNat w bottom.toNat) 1200 628)

/-- The allowed upload extensions (app.py line 26). -/
def ALLOWED_IMAGE_EXTENSIONS : List String :=
  [".png", ".jpg", ".jpeg", ".webp", ".gif"]

/-- Model of `os.path.splitext(s)[1]`: the extension starts at the last
dot that has at least one non-dot character somewhere before it (leading
dots belong to the base name). -/
def splitextExt (s : String) : String :=
  let cs := s.data
  let idxs := (List.range cs.length).filter (fun i =>
    cs.get? i = some '.' ∧ (List.range i).any (fun j => ¬ cs.get? j = some '.'))
  match idxs.getLast? with
  | some i => String.mk (cs.drop i)
  | none => ""

/-- Model of `_is_allowed_image_filename` (app.py lines 167-169). -/
def _is_allowed_image_filename (filename : String) : Bool :=
  ALLOWED_IMAGE_EXTENSIONS.contains (String.mk (lowerChars (splitextExt filename)))

/-- Model of `_save_uploaded_image_for_image_host` (app.py lines 209-283),
restricted to the stored image content (its URL outputs are request glue).
`filename` is the client filename after `secure_filename` (multipart
sanitization is an excluded collaborator), `original` is the saved upload,
and `decoded` is the outcome of `Image.open` on it — `.error` models a
corrupt or undecodable file.  A `ValueError` rejection is `.error`; any
exception inside the transform block is swallowed and the unmodified
upload is kept. -/
def _save_uploaded_image_for_image_host
    (filename content_type : String) (original : PImage)
    (decoded : Except String PImage) (offset_y : Option Int) :
    Except String PImage :=
  if filename = "" ∨ ¬ _is_allowed_image_filename filename = true then
    .error "Invalid image file type"
  else if content_type = "" ∨ ¬ pyStartswith content_type "image/" = true then
    .error "Invalid image file type"
  else
    .ok (match decoded with
      | .error _ => original
      | .ok img =>
          match normalizeCard img offset_y with
          | .error _ => original
          | .ok out => out)

/-! ### Grid composition (`_create_grid_image`, app.py lines 286-386) -/

/-- The fixed layout table: image count to `(cols, rows)`. -/
def gridLayout (n : Nat) : Nat × Nat :=
  if n = 2 then (2, 1)
  else if n = 3 then (3, 1)
  else if n = 4 then (2, 2)
  else (3, 2)

/-- Grid cell `(col, row)` of image `idx` (app.py lines 328-340): for five
images, the first three fill row 0 and the last two sit at columns 1-2 of
row 1; otherwise row-major order. -/
def gridPos (num_images cols idx : Nat) : Nat × Nat :=
  if num_images = 5 then
    if idx < 3 then (idx, 0) else (idx - 3 + 1, 1)
  else (idx % cols, idx / cols)

/-- The paste loop of `_create_grid_image`: each image is resized to the
cell size and pasted at its cell's top-left pixel. -/
def pasteCells (canvas : PImage) (imgs : List PImage)
    (num_images cols cell_w cell_h idx : Nat) : PImage :=
  match imgs with
  | [] => canvas
  | img :: rest =>
      let pos := gridPos num_images cols idx
      pasteCells (.pastedI canvas (.resizedI img cell_w cell_h)
          (pos.1 * cell_w) (pos.2 * cell_h)) rest num_images cols cell_w cell_h (idx + 1)

/-- Environment of the overlay `try` block: the outcome of loading a font
and measuring the text with `draw.textbbox` (`.ok (text_w, text_h)`), or
`.error` for any failure in the block (missing font, measuring or drawing
error), which the code swallows. -/
structure OverlayEnv where
  measure : Except String (Int × Int)

/-- Model of `_create_grid_image` (app.py lines 286-386).  Fewer than two
images is a `ValueError`; more than five are truncated to the first five;
the canvas is white 1200x628 and each cell is the canvas divided evenly
by the layout.  If overlay text is supplied (nonempty — the caller passes
`None` for empty text and the function tests truthiness), a backing
rectangle and the text are drawn at the bottom-right with padding 20;
any failure in that block leaves the plain grid as the result.  (The
rectangle fill `(255,255,255,230)` is modelled as its RGB part.) -/
def _create_grid_image (image_files : List PImage) (overlay_text : Option String)
    (env : OverlayEnv) : Except String PImage :=
  if image_files.length < 2 then .error "Need at least 2 images for grid"
  else
    let files := image_files.take 5
    let n := files.length
    let layout := gridLayout n
    let cell_w := 1200 / layout.1
    let cell_h := 628 / layout.2
    let canvas := pasteCells (.uniform 1200 628 whiteC) files n layout.1 cell_w cell_h 0
    match overlay_text with
    | none => .ok canvas
    | some t =>
        if t = "" then .ok canvas
        else
          match env.measure with
          | .error _ => .ok canvas
          | .ok tw_th =>
              let text_w := tw_th.1
              let text_h := tw_th.2
              let box_x := (1200 : Int) - text_w - 40
              let box_y := (628 : Int) - text_h - 40
              .ok (.textI (.rectI canvas (box_x - 20) (box_y - 20)
                  (box_x + text_w + 20) (box_y + text_h + 20) whiteC)
                box_x box_y t blackC)

/-! ### Sample data for concrete instantiations -/

/-- A sample stored link record. -/
def sampleRow : LinkRow :=
  { dest_url := "https://dest.example/page"
    img_url := some "/static/uploads/x.png"
    title := "Title"
    description := some "Desc"
    card_size := some "large"
    site_name := none
    button_text := none
    og_url := none }

/-- A sample one-row link store. -/
def sampleStore : String → Option LinkRow :=
  fun s => if s = "Ab3xY9" then some sampleRow else none

/-! ### Helper lemmas -/

/-- A string is empty iff its character list is. -/
theorem string_eq_empty_iff (s : String) : s = "" ↔ s.data = [] := by
  cases s with
  | mk d =>
      constructor
      · intro h
        rw [h]
      · intro h
        have hd : d = [] := h
        subst hd
        rfl

/-- A string starting with a slash starts with neither scheme prefix and
is nonempty. -/
theorem startsWith_slash_cases (img : String) (h : pyStartswith img "/" = true) :
    pyStartswith img "http://" = false ∧ pyStartswith img "https://" = false
      ∧ ¬ img = "" := by
  rcases img with ⟨d⟩
  cases d with
  | nil => simp [pyStartswith, List.isPrefixOf] at h
  | cons c cs =>
      simp only [pyStartswith, show ("/" : String).data = ['/'] from rfl,
        List.isPrefixOf, Bool.and_eq_true, beq_iff_eq] at h
      obtain ⟨hc, -⟩ := h
      subst hc
      refine ⟨?_, ?_, ?_⟩
      · simp [pyStartswith, show ("http://" : String).data
          = ['h', 't', 't', 'p', ':', '/', '/'] from rfl, List.isPrefixOf]
      · simp [pyStartswith, show ("https://" : String).data
          = ['h', 't', 't', 'p', 's', ':', '/', '/'] from rfl, List.isPrefixOf]
      · simp [string_eq_empty_iff]

/-- Stripping leading slashes from a string with no leading slash is the
identity. -/
theorem lstripChar_slash_eq_self (img : String) (hne : ¬ img = "")
    (h : pyStartswith img "/" = false) : lstripChar img '/' = img := by
  rcases img with ⟨d⟩
  cases d with
  | nil => simp [string_eq_empty_iff] at hne
  | cons c cs =>
      simp only [pyStartswith, show ("/" : String).data = ['/'] from rfl,
        List.isPrefixOf, Bool.and_eq_true, beq_iff_eq] at h
      have hc : ¬ c = '/' := by
        intro hcc
        subst hcc
        simp at h
      simp [lstripChar, List.dropWhile, hc]

/-- Lookup failure characterized pointwise. -/
theorem findImage_eq_none_iff (db : List ImageRecord) (image_id : String) :
    findImage db image_id = none ↔ ∀ r ∈ db, ¬ r.id = image_id := by
  simp [findImage, List.find?_eq_none]

/-- A record found by lookup is a member of the table. -/
theorem findImage_mem {db : List ImageRecord} {image_id : String} {r : ImageRecord}
    (h : findImage db image_id = some r) : r ∈ db :=
  List.mem_of_find?_eq_some h

/-- A record found by lookup has the looked-up id. -/
theorem findImage_id {db : List ImageRecord} {image_id : String} {r : ImageRecord}
    (h : findImage db image_id = some r) : r.id = image_id := by
  have := List.find?_some h
  simpa using this

/-- Absent records stay absent after the sweep. -/
theorem findImage_cleanup_none {db : List ImageRecord} {image_id : String} {now : Int}
    (h : findImage db image_id = none) :
    findImage (cleanupDb db now) image_id = none := by
  rw [findImage_eq_none_iff] at h ⊢
  intro r hr
  exact h r (List.mem_of_mem_filter hr)

/-- A found, unexpired record is still the lookup result after the sweep. -/
theorem findImage_cleanup_some {db : List ImageRecord} {image_id : String}
    {now : Int} {r : ImageRecord}
    (hf : findImage db image_id = some r) (he : isExpiredAt r now = false) :
    findImage (cleanupDb db now) image_id = some r := by
  induction db with
  | nil => simp [findImage] at hf
  | cons s rest ih =>
      by_cases hs : s.id = image_id
      · have hsb : (s.id == image_id) = true := by simp [hs]
        have hrs : s = r := by
          simpa [findImage, List.find?, hsb] using hf
        subst hrs
        simp [cleanupDb, findImage, List.find?, he, hsb, List.filter]
      · have hsb : (s.id == image_id) = false := by simp [hs]
        have hf2 : findImage rest image_id = some r := by
          simpa [findImage, List.find?, hsb] using hf
        have hrec := ih hf2
        by_cases hk : isExpiredAt s now = true
        · simpa [cleanupDb, List.filter, hk] using hrec
        · simp only [Bool.not_eq_true] at hk
          simpa [cleanupDb, findImage, List.find?, List.filter, hk, hsb] using hrec

/-- With unique ids, a found, expired record is gone after the sweep. -/
theorem findImage_cleanup_expired {db : List ImageRecord} {image_id : String}
    {now : Int} {r : ImageRecord} (hnd : (db.map (·.id)).Nodup)
    (hf : findImage db image_id = some r) (he : isExpiredAt r now = true) :
    findImage (cleanupDb db now) image_id = none := by
  induction db with
  | nil => simp [findImage] at hf
  | cons s rest ih =>
      have hnd2 : (rest.map (·.id)).Nodup := (List.nodup_cons.mp (by simpa using hnd)).2
      have hnotin : ¬ s.id ∈ rest.map (·.id) := (List.nodup_cons.mp (by simpa using hnd)).1
      by_cases hs : s.id = image_id
      · have hsb : (s.id == image_id) = true := by simp [hs]
        have hrs : s = r := by
          simpa [findImage, List.find?, hsb] using hf
        subst hrs
        rw [findImage_eq_none_iff]
        intro t ht
        have ht' : t ∈ List.filter (fun x => ! isExpiredAt x now) (s :: rest) := ht
        have hmf := List.mem_filter.mp ht'
        have ht2 : t ∈ rest := by
          rcases List.mem_cons.mp hmf.1 with h1 | h1
          · exfalso
            have hkeep := hmf.2
            rw [h1, he] at hkeep
            exact Bool.noConfusion hkeep
          · exact h1
        intro hteq
        exact hnotin (by rw [hs, ← hteq]; exact List.mem_map_of_mem _ ht2)
      · have hsb : (s.id == image_id) = false := by simp [hs]
        have hf2 : findImage rest image_id = some r := by
          simpa [findImage, List.find?, hsb] using hf
        have hrec := ih hnd2 hf2
        by_cases hk : isExpiredAt s now = true
        · simpa [cleanupDb, List.filter, hk] using hrec
        · simp only [Bool.not_eq_true] at hk
          simpa [cleanupDb, findImage, List.find?, List.filter, hk, hsb] using hrec

/-- Deleting a record's rows makes its id unfindable. -/
theorem findImage_delete (db : List ImageRecord) (image_id : String) :
    findImage (deleteImageRows db image_id) image_id = none := by
  rw [findImage_eq_none_iff]
  intro r hr
  have := (List.mem_filter.mp hr).2
  simpa using this

/-- Expired members contribute their backing file to the sweep's removals. -/
theorem mem_expiredFiles {db : List ImageRecord} {now : Int} {r : ImageRecord}
    (hr : r ∈ db) (he : isExpiredAt r now = true) :
    r.filename ∈ expiredFiles db now := by
  simp only [expiredFiles, List.mem_map]
  exact ⟨r, List.mem_filter.mpr ⟨hr, by simpa using he⟩, rfl⟩

/-- With unique filenames, an unexpired member's file is not removed by
the sweep. -/
theorem not_mem_expiredFiles {db : List ImageRecord} {now : Int} {r : ImageRecord}
    (hnd : (db.map (·.filename)).Nodup) (hr : r ∈ db) (he : isExpiredAt r now = false) :
    ¬ r.filename ∈ expiredFiles db now := by
  intro hmem
  simp only [expiredFiles, List.mem_map] at hmem
  obtain ⟨s, hsf, hfn⟩ := hmem
  have hs : s ∈ db := List.mem_of_mem_filter hsf
  have hse : isExpiredAt s now = true := by simpa using (List.mem_filter.mp hsf).2
  have hsr : s = r := List.inj_on_of_nodup_map hnd hs hr hfn
  rw [hsr, he] at hse
  exact Bool.noConfusion hse

/-- Expiry is monotone in the clock. -/
theorem isExpiredAt_mono {r : ImageRecord} {now1 now2 : Int} (h : now1 ≤ now2)
    (he : isExpiredAt r now1 = true) : isExpiredAt r now2 = true := by
  cases hx : r.expires_at with
  | none => simp [isExpiredAt, hx] at he
  | some t =>
      simp only [isExpiredAt, hx, decide_eq_true_eq] at he ⊢
      omega

/-- Unexpired members survive the sweep. -/
theorem mem_cleanupDb {db : List ImageRecord} {now : Int} {r : ImageRecord}
    (hr : r ∈ db) (he : isExpiredAt r now = false) : r ∈ cleanupDb db now := by
  exact List.mem_filter.mpr ⟨hr, by simp [he]⟩

/-! ### Claim theorems -/

/-- C1: for every stored link record and every visit, a user-agent whose
case-insensitive contents contain one of the fixed crawler signatures
receives the metadata document with a non-3xx status, and every other
user-agent receives exactly an HTTP 302 redirect to the record's stored
destination URL. -/
theorem cloaking_bot_vs_human (store : String → Option LinkRow)
    (slug user_agent scheme host : String) (link : LinkRow)
    (hfound : store slug = some link) :
    (isBot user_agent = true →
      redirect_handler store slug user_agent scheme host
          = .metaDocR (buildMeta link scheme host slug)
        ∧ ¬ (300 ≤ (redirect_handler store slug user_agent scheme host).status
              ∧ (redirect_handler store slug user_agent scheme host).status < 400))
    ∧ (isBot user_agent = false →
        redirect_handler store slug user_agent scheme host
          = .redirectR 302 link.dest_url) := by
  constructor
  · intro hbot
    constructor
    · simp [redirect_handler, hfound, hbot]
    · simp [redirect_handler, hfound, hbot, HResponse.status]
  · intro hhum
    simp [redirect_handler, hfound, hhum]

/-- Witness for C1: a concrete store, a crawler user-agent and a browser
user-agent. -/
theorem cloaking_bot_vs_human_witness :
    sampleStore "Ab3xY9" = some sampleRow
    ∧ isBot "Mozilla/5.0 (compatible; facebookexternalhit/1.1)" = true
    ∧ isBot "Mozilla/5.0 (X11; Linux x86_64) Chrome/120" = false
    ∧ ((isBot "Mozilla/5.0 (compatible; facebookexternalhit/1.1)" = true →
        redirect_handler sampleStore "Ab3xY9"
            "Mozilla/5.0 (compatible; facebookexternalhit/1.1)" "https" "ex.com"
          = .metaDocR (buildMeta sampleRow "https" "ex.com" "Ab3xY9")
        ∧ ¬ (300 ≤ (redirect_handler sampleStore "Ab3xY9"
                "Mozilla/5.0 (compatible; facebookexternalhit/1.1)" "https" "ex.com").status
            ∧ (redirect_handler sampleStore "Ab3xY9"
                "Mozilla/5.0 (compatible; facebookexternalhit/1.1)" "https" "ex.com").status < 400))
      ∧ (isBot "Mozilla/5.0 (compatible; facebookexternalhit/1.1)" = false →
          redirect_handler sampleStore "Ab3xY9"
              "Mozilla/5.0 (compatible; facebookexternalhit/1.1)" "https" "ex.com"
            = .redirectR 302 sampleRow.dest_url))
    ∧ redirect_handler sampleStore "Ab3xY9"
        "Mozilla/5.0 (X11; Linux x86_64) Chrome/120" "https" "ex.com"
      = .redirectR 302 "https://dest.example/page" :=
  ⟨rfl, by decide, by decide,
    cloaking_bot_vs_human sampleStore "Ab3xY9"
      "Mozilla/5.0 (compatible; facebookexternalhit/1.1)" "https" "ex.com" sampleRow rfl,
    (cloaking_bot_vs_human sampleStore "Ab3xY9"
      "Mozilla/5.0 (X11; Linux x86_64) Chrome/120" "https" "ex.com" sampleRow rfl).2
      (by decide)⟩

/-- C8: on a bot-classified visit to an existing slug, the emitted image
URL comes from the stored image_ref: already-absolute refs are unchanged,
refs beginning with a slash get scheme and host prefixed, and bare path
segments get the site root and a slash prefixed. -/
theorem bot_image_url_normalized (store : String → Option LinkRow)
    (slug user_agent scheme host : String) (link : LinkRow)
    (hfound : store slug = some link) (hbot : isBot user_agent = true) :
    (redirect_handler store slug user_agent scheme host
        = .metaDocR (buildMeta link scheme host slug)
      ∧ (buildMeta link scheme host slug).img = absolutizeImg link.img_url scheme host)
    ∧ (∀ img : String,
        pyStartswith img "http://" = true ∨ pyStartswith img "https://" = true →
        absolutizeImg (some img) scheme host = img)
    ∧ (∀ img : String, pyStartswith img "/" = true →
        absolutizeImg (some img) scheme host = scheme ++ "://" ++ host ++ img)
    ∧ (∀ img : String, ¬ img = "" →
        pyStartswith img "http://" = false → pyStartswith img "https://" = false →
        pyStartswith img "/" = false →
        absolutizeImg (some img) scheme host
          = (scheme ++ "://" ++ host) ++ "/" ++ img) := by
  refine ⟨⟨?_, rfl⟩, ?_, ?_, ?_⟩
  · simp [redirect_handler, hfound, hbot]
  · intro img h
    rcases h with h | h <;> simp [absolutizeImg, h]
  · intro img h
    obtain ⟨h1, h2, h3⟩ := startsWith_slash_cases img h
    simp [absolutizeImg, h, h1, h2, h3]
  · intro img h0 h1 h2 h3
    simp [absolutizeImg, h0, h1, h2, h3, lstripChar_slash_eq_self img h0 h3]

/-- Witness for C8: concrete normalizations of the three reference shapes
plus the theorem applied at a concrete bot visit. -/
theorem bot_image_url_normalized_witness :
    isBot "twitterbot/1.0" = true
    ∧ absolutizeImg (some "/static/uploads/x.png") "https" "ex.com"
        = "https://ex.com/static/uploads/x.png"
    ∧ absolutizeImg (some "uploads/x.png") "https" "ex.com"
        = "https://ex.com/uploads/x.png"
    ∧ absolutizeImg (some "http://cdn.example/i.png") "https" "ex.com"
        = "http://cdn.example/i.png"
    ∧ ((redirect_handler sampleStore "Ab3xY9" "twitterbot/1.0" "https" "ex.com"
          = .metaDocR (buildMeta sampleRow "https" "ex.com" "Ab3xY9")
        ∧ (buildMeta sampleRow "https" "ex.com" "Ab3xY9").img
            = absolutizeImg sampleRow.img_url "https" "ex.com")
      ∧ (∀ img : String,
          pyStartswith img "http://" = true ∨ pyStartswith img "https://" = true →
          absolutizeImg (some img) "https" "ex.com" = img)
      ∧ (∀ img : String, pyStartswith img "/" = true →
          absolutizeImg (some img) "https" "ex.com" = "https" ++ "://" ++ "ex.com" ++ img)
      ∧ (∀ img : String, ¬ img = "" →
          pyStartswith img "http://" = false → pyStartswith img "https://" = false →
          pyStartswith img "/" = false →
          absolutizeImg (some img) "https" "ex.com"
            = ("https" ++ "://" ++ "ex.com") ++ "/" ++ img)) :=
  ⟨by decide, by decide, by decide, by decide,
    bot_image_url_normalized sampleStore "Ab3xY9" "twitterbot/1.0" "https" "ex.com"
      sampleRow rfl (by decide)⟩

/-- C3 counterexample: a visit to a single-segment Thai path whose slug
lookup fails.  The decoded path contains a Thai-range character, yet the
response is the slug handler's own 404 and not the claimed 302 to the
upload page — a view that returns status 404 never invokes the Flask 404
error handler that holds the Thai-script recovery. -/
theorem thai_recovery_cex :
    (pyUnquote "/ก").data.any isThaiChar = true
    ∧ (fun _ => (none : Option LinkRow)) "ก" = none
    ∧ handleGET (fun _ => none) [] "/ก" "Mozilla/5.0" "https" "ex.com" 0
        = .errR 404 "Link not found"
    ∧ ¬ handleGET (fun _ => none) [] "/ก" "Mozilla/5.0" "https" "ex.com" 0
        = .redirectR 302 "/upload" := by
  refine ⟨by decide, rfl, by decide, by decide⟩

/-- C3 amended: a failed slug lookup on a matched `/slug` route always
answers 404 `Link not found` regardless of the path's script content; the
Thai-script recovery applies only inside the routing-miss 404 handler,
where a percent-decoded path containing a Thai-block character (or a raw
path containing `%e0%b8` case-insensitively) redirects 302 to the upload
page and any other path yields 404. -/
theorem thai_recovery_amended :
    (∀ (store : String → Option LinkRow) (imgdb : List ImageRecord)
        (path user_agent scheme host : String) (now : Int) (s : String),
        dispatchGET path = .slugRoute s → store s = none →
        handleGET store imgdb path user_agent scheme host now
          = .errR 404 "Link not found")
    ∧ (∀ path : String, (pyUnquote path).data.any isThaiChar = true →
        handle_not_found path = .redirectR 302 "/upload")
    ∧ (∀ path : String,
        infixOfB "%e0%b8".data (path.data.map Char.toLower) = true →
        handle_not_found path = .redirectR 302 "/upload")
    ∧ (∀ path : String, (pyUnquote path).data.any isThaiChar = false →
        infixOfB "%e0%b8".data (path.data.map Char.toLower) = false →
        handle_not_found path = .errR 404 "Not found") := by
  refine ⟨?_, ?_, ?_, ?_⟩
  · intro store imgdb path user_agent scheme host now s hd hs
    simp [handleGET, hd, redirect_handler, hs]
  · intro path h
    simp [handle_not_found, h]
  · intro path h
    simp [handle_not_found, h]
  · intro path h1 h2
    simp [handle_not_found, h1, h2]

/-- Witness for the amended C3 at concrete paths: a missing slug, a
percent-encoded Thai path at the routing-miss handler, and a plain miss. -/
theorem thai_recovery_amended_witness :
    dispatchGET "/zzzzzz" = .slugRoute "zzzzzz"
    ∧ handleGET (fun _ => none) [] "/zzzzzz" "ua" "https" "ex.com" 0
        = .errR 404 "Link not found"
    ∧ (pyUnquote "/%E0%B8%81").data.any isThaiChar = true
    ∧ handle_not_found "/%E0%B8%81" = .redirectR 302 "/upload"
    ∧ handle_not_found "/missing/page" = .errR 404 "Not found" :=
  ⟨by decide,
    thai_recovery_amended.1 (fun _ => none) [] "/zzzzzz" "ua" "https" "ex.com" 0
      "zzzzzz" (by decide) rfl,
    by decide,
    thai_recovery_amended.2.1 "/%E0%B8%81" (by decide),
    thai_recovery_amended.2.2.2 "/missing/page" (by decide) (by decide)⟩

/-- C2 counterexample: a record that is already expired at the time of the
request, deleted with a non-matching token.  The claim predicts success;
the endpoint's entry sweep removes the record first, so the lookup fails
and the response is 404 `Not found`, not success. -/
theorem delete_expired_cex :
    findImage [(⟨"img1", "img1.jpg", "image/jpeg", "", "", 0, some 5, "secret"⟩ :
        ImageRecord)] "img1"
      = some ⟨"img1", "img1.jpg", "image/jpeg", "", "", 0, some 5, "secret"⟩
    ∧ isExpiredAt ⟨"img1", "img1.jpg", "image/jpeg", "", "", 0, some 5, "secret"⟩ 10 = true
    ∧ (api_delete_image [⟨"img1", "img1.jpg", "image/jpeg", "", "", 0, some 5, "secret"⟩]
        "img1" (some "wrong") 10 10).resp = .errA 404 "Not found"
    ∧ ¬ (api_delete_image [⟨"img1", "img1.jpg", "image/jpeg", "", "", 0, some 5, "secret"⟩]
        "img1" (some "wrong") 10 10).resp = .okTrue := by
  refine ⟨by decide, by decide, by decide, by decide⟩

/-- C2 amended: `delete(id, token)` with a supplied token behaves as: no
record for id means NotFound; a record already expired when the entry
sweep runs is removed (file and record) by the sweep and the operation
then reports NotFound, not success; a record that expires between the
sweep and the handler's own check is deleted unconditionally with success;
an unexpired record is untouched on a token mismatch (Forbidden) and
deleted with success on a match. -/
theorem api_delete_image_amended (db : List ImageRecord)
    (image_id tok : String) (now1 now2 : Int)
    (hnd : (db.map (·.id)).Nodup) (hfnd : (db.map (·.filename)).Nodup)
    (htok : ¬ tok = "") (hnow : now1 ≤ now2) :
    (findImage db image_id = none →
      (api_delete_image db image_id (some tok) now1 now2).resp
        = .errA 404 "Not found")
    ∧ (∀ r, findImage db image_id = some r → isExpiredAt r now1 = true →
        (api_delete_image db image_id (some tok) now1 now2).resp
            = .errA 404 "Not found"
        ∧ findImage (api_delete_image db image_id (some tok) now1 now2).db image_id
            = none
        ∧ r.filename ∈ (api_delete_image db image_id (some tok) now1 now2).removedFiles)
    ∧ (∀ r, findImage db image_id = some r → isExpiredAt r now1 = false →
        isExpiredAt r now2 = true →
        (api_delete_image db image_id (some tok) now1 now2).resp = .okTrue
        ∧ findImage (api_delete_image db image_id (some tok) now1 now2).db image_id
            = none
        ∧ r.filename ∈ (api_delete_image db image_id (some tok) now1 now2).removedFiles)
    ∧ (∀ r, findImage db image_id = some r → isExpiredAt r now2 = false →
        ¬ tok = r.delete_token →
        (api_delete_image db image_id (some tok) now1 now2).resp
            = .errA 403 "Invalid delete_token"
        ∧ findImage (api_delete_image db image_id (some tok) now1 now2).db image_id
            = some r
        ∧ ¬ r.filename ∈ (api_delete_image db image_id (some tok) now1 now2).removedFiles)
    ∧ (∀ r, findImage db image_id = some r → isExpiredAt r now2 = false →
        tok = r.delete_token →
        (api_delete_image db image_id (some tok) now1 now2).resp = .okTrue
        ∧ findImage (api_delete_image db image_id (some tok) now1 now2).db image_id
            = none
        ∧ r.filename ∈ (api_delete_image db image_id (some tok) now1 now2).removedFiles) := by
  refine ⟨?_, ?_, ?_, ?_, ?_⟩
  · intro hf
    simp [api_delete_image, htok, findImage_cleanup_none hf]
  · intro r hf he1
    have hcl := findImage_cleanup_expired hnd hf he1
    refine ⟨?_, ?_, ?_⟩
    · simp [api_delete_image, htok, hcl]
    · simp [api_delete_image, htok, hcl]
    · simp only [api_delete_image, htok, hcl]
      simp [mem_expiredFiles (findImage_mem hf) he1]
  · intro r hf he1 he2
    have hcl := findImage_cleanup_some hf he1
    refine ⟨?_, ?_, ?_⟩
    · simp [api_delete_image, htok, hcl, he2]
    · simp [api_delete_image, htok, hcl, he2, findImage_delete]
    · simp [api_delete_image, htok, hcl, he2]
  · intro r hf he2 hne
    have he1 : isExpiredAt r now1 = false := by
      rcases hx : isExpiredAt r now1 with _ | _
      · rfl
      · rw [isExpiredAt_mono hnow hx] at he2
        exact Bool.noConfusion he2
    have hcl := findImage_cleanup_some hf he1
    refine ⟨?_, ?_, ?_⟩
    · simp [api_delete_image, htok, hcl, he2, hne]
    · simp [api_delete_image, htok, hcl, he2, hne]
    · simp only [api_delete_image, htok, hcl, he2, hne]
      simp [not_mem_expiredFiles hfnd (findImage_mem hf) he1, hne, he2]
  · intro r hf he2 heq
    have he1 : isExpiredAt r now1 = false := by
      rcases hx : isExpiredAt r now1 with _ | _
      · rfl
      · rw [isExpiredAt_mono hnow hx] at he2
        exact Bool.noConfusion he2
    have hcl := findImage_cleanup_some hf he1
    subst heq
    refine ⟨?_, ?_, ?_⟩
    · simp [api_delete_image, htok, hcl, he2]
    · simp [api_delete_image, htok, hcl, he2, findImage_delete]
    · simp [api_delete_image, htok, hcl, he2]

/-- Witness for the amended C2: deleting an unexpired record with its
matching token succeeds and removes record and file. -/
theorem api_delete_image_amended_witness :
    (api_delete_image [⟨"a", "a.jpg", "image/png", "", "", 0, none, "tk"⟩]
        "a" (some "tk") 0 0).resp = .okTrue
    ∧ findImage (api_delete_image [⟨"a", "a.jpg", "image/png", "", "", 0, none, "tk"⟩]
        "a" (some "tk") 0 0).db "a" = none
    ∧ (⟨"a", "a.jpg", "image/png", "", "", 0, none, "tk"⟩ : ImageRecord).filename
        ∈ (api_delete_image [⟨"a", "a.jpg", "image/png", "", "", 0, none, "tk"⟩]
            "a" (some "tk") 0 0).removedFiles :=
  (api_delete_image_amended [⟨"a", "a.jpg", "image/png", "", "", 0, none, "tk"⟩]
      "a" "tk" 0 0 (by decide) (by decide) (by decide) (by decide)).2.2.2.2
    ⟨"a", "a.jpg", "image/png", "", "", 0, none, "tk"⟩ (by decide) (by decide) rfl

/-- C10 counterexample: a delete request with no token on an expired
record.  The response is the claimed 400 `Missing delete_token`, but the
entry sweep has already removed the record and its backing file,
contradicting the claim that nothing is removed. -/
theorem missing_token_cex :
    ¬ findImage [(⟨"img2", "img2.jpg", "image/jpeg", "", "", 0, some 5, "secret"⟩ :
        ImageRecord)] "img2" = none
    ∧ (api_delete_image [⟨"img2", "img2.jpg", "image/jpeg", "", "", 0, some 5, "secret"⟩]
        "img2" none 10 10).resp = .errA 400 "Missing delete_token"
    ∧ findImage (api_delete_image
        [⟨"img2", "img2.jpg", "image/jpeg", "", "", 0, some 5, "secret"⟩]
        "img2" none 10 10).db "img2" = none
    ∧ "img2.jpg" ∈ (api_delete_image
        [⟨"img2", "img2.jpg", "image/jpeg", "", "", 0, some 5, "secret"⟩]
        "img2" none 10 10).removedFiles := by
  refine ⟨by decide, by decide, by decide, by decide⟩

/-- C10 amended: with no (or an empty) token the operation reports 400
`Missing delete_token` and performs no token-authorized deletion — every
unexpired record survives — but the expiry sweep at the start of the
operation still removes every already-expired record and its backing
file, including the targeted one. -/
theorem missing_token_amended (db : List ImageRecord) (image_id : String)
    (token : Option String) (now1 now2 : Int)
    (h : token = none ∨ token = some "") :
    (api_delete_image db image_id token now1 now2).resp
        = .errA 400 "Missing delete_token"
    ∧ (api_delete_image db image_id token now1 now2).db = cleanupDb db now1
    ∧ (api_delete_image db image_id token now1 now2).removedFiles
        = expiredFiles db now1
    ∧ (∀ r ∈ db, isExpiredAt r now1 = false →
        r ∈ (api_delete_image db image_id token now1 now2).db) := by
  rcases h with h | h <;> subst h
  · refine ⟨rfl, rfl, rfl, ?_⟩
    intro r hr he
    exact mem_cleanupDb hr he
  · refine ⟨rfl, rfl, rfl, ?_⟩
    intro r hr he
    exact mem_cleanupDb hr he

/-- Witness for the amended C10: a missing token leaves the 400 response
while the sweep removes the expired record. -/
theorem missing_token_amended_witness :
    (api_delete_image [⟨"b", "b.jpg", "image/png", "", "", 0, some 3, "tk"⟩]
        "b" none 10 10).resp = .errA 400 "Missing delete_token"
    ∧ (api_delete_image [⟨"b", "b.jpg", "image/png", "", "", 0, some 3, "tk"⟩]
        "b" none 10 10).db
      = cleanupDb [⟨"b", "b.jpg", "image/png", "", "", 0, some 3, "tk"⟩] 10
    ∧ (api_delete_image [⟨"b", "b.jpg", "image/png", "", "", 0, some 3, "tk"⟩]
        "b" none 10 10).removedFiles
      = expiredFiles [⟨"b", "b.jpg", "image/png", "", "", 0, some 3, "tk"⟩] 10
    ∧ (∀ r ∈ ([⟨"b", "b.jpg", "image/png", "", "", 0, some 3, "tk"⟩] :
          List ImageRecord), isExpiredAt r 10 = false →
        r ∈ (api_delete_image [⟨"b", "b.jpg", "image/png", "", "", 0, some 3, "tk"⟩]
            "b" none 10 10).db) :=
  missing_token_amended [⟨"b", "b.jpg", "image/png", "", "", 0, some 3, "tk"⟩]
    "b" none 10 10 (Or.inl rfl)

/-- C9: every record inserted by the grid-compose operation has
`expires_at = None`; a never-expiring record is never classified expired,
never selected by the sweep, and the expiry branch of deletion never
authorizes its removal (a wrong token is still Forbidden); only the
single-image upload computes a finite `expires_at`, and it can. -/
theorem grid_records_never_expire :
    (∀ (image_id saved_name delete_token : String) (now : Int),
        (gridInsertRecord image_id saved_name delete_token now).expires_at = none)
    ∧ (∀ (r : ImageRecord) (now : Int), r.expires_at = none →
        isExpiredAt r now = false)
    ∧ (∀ (db : List ImageRecord) (now : Int) (r : ImageRecord), r ∈ db →
        r.expires_at = none → r ∈ cleanupDb db now)
    ∧ (∀ (db : List ImageRecord) (image_id tok : String) (now1 now2 : Int)
        (r : ImageRecord),
        findImage (cleanupDb db now1) image_id = some r → r.expires_at = none →
        ¬ tok = "" → ¬ tok = r.delete_token →
        (api_delete_image db image_id (some tok) now1 now2).resp
          = .errA 403 "Invalid delete_token")
    ∧ (∀ (image_id saved_name content_type title description : String) (now : Int)
        (expires_at : Option Int) (delete_token : String),
        (uploadInsertRecord image_id saved_name content_type title description now
            expires_at delete_token).expires_at = expires_at)
    ∧ uploadExpiresAt (some "10") 0 = .ok (some 600) := by
  refine ⟨?_, ?_, ?_, ?_, ?_, ?_⟩
  · intro image_id saved_name delete_token now
    rfl
  · intro r now h
    simp [isExpiredAt, h]
  · intro db now r hr h
    exact mem_cleanupDb hr (by simp [isExpiredAt, h])
  · intro db image_id tok now1 now2 r hf hnone htok hne
    have hexp : isExpiredAt r now2 = false := by simp [isExpiredAt, hnone]
    simp [api_delete_image, htok, hf, hexp, hne]
  · intro image_id saved_name content_type title description now expires_at delete_token
    rfl
  · rfl

/-- Witness for C9: a concrete grid record is unexpired at any sampled
time, survives the sweep, and expiry never authorizes its deletion. -/
theorem grid_records_never_expire_witness :
    (gridInsertRecord "g1" "g1.jpg" "tok" 0).expires_at = none
    ∧ isExpiredAt (gridInsertRecord "g1" "g1.jpg" "tok" 0) 999999 = false
    ∧ gridInsertRecord "g1" "g1.jpg" "tok" 0
        ∈ cleanupDb [gridInsertRecord "g1" "g1.jpg" "tok" 0] 999999
    ∧ (api_delete_image [gridInsertRecord "g1" "g1.jpg" "tok" 0]
        "g1" (some "wrong") 999999 999999).resp = .errA 403 "Invalid delete_token"
    ∧ uploadExpiresAt (some "10") 0 = .ok (some 600) :=
  ⟨grid_records_never_expire.1 "g1" "g1.jpg" "tok" 0,
    grid_records_never_expire.2.1 _ 999999 rfl,
    grid_records_never_expire.2.2.1 _ 999999 _ (by decide) rfl,
    grid_records_never_expire.2.2.2.1 [gridInsertRecord "g1" "g1.jpg" "tok" 0]
      "g1" "wrong" 999999 999999 (gridInsertRecord "g1" "g1.jpg" "tok" 0)
      (by decide) rfl (by decide) (by decide),
    grid_records_never_expire.2.2.2.2.2⟩

/-- C4: failures inside the image transforms never fail the enclosing
request — a failed decode or a failed normalization leaves the unmodified
upload as the stored image and the upload still succeeds, and a failed
overlay step leaves the plain grid as valid output. -/
theorem transform_failures_nonfatal :
    (∀ (filename content_type : String) (original : PImage)
        (offset_y : Option Int) (msg : String),
        ¬ filename = "" → _is_allowed_image_filename filename = true →
        ¬ content_type = "" → pyStartswith content_type "image/" = true →
        _save_uploaded_image_for_image_host filename content_type original
            (.error msg) offset_y = .ok original)
    ∧ (∀ (filename content_type : String) (original img : PImage)
        (offset_y : Option Int) (msg : String),
        ¬ filename = "" → _is_allowed_image_filename filename = true →
        ¬ content_type = "" → pyStartswith content_type "image/" = true →
        normalizeCard img offset_y = .error msg →
        _save_uploaded_image_for_image_host filename content_type original
            (.ok img) offset_y = .ok original)
    ∧ (∀ (filename content_type : String) (original : PImage)
        (decoded : Except String PImage) (offset_y : Option Int),
        ¬ filename = "" → _is_allowed_image_filename filename = true →
        ¬ content_type = "" → pyStartswith content_type "image/" = true →
        ∃ out, _save_uploaded_image_for_image_host filename content_type original
            decoded offset_y = .ok out)
    ∧ (∀ (imgs : List PImage) (t msg : String),
        2 ≤ imgs.length → ¬ t = "" →
        _create_grid_image imgs (some t) ⟨.error msg⟩
            = _create_grid_image imgs none ⟨.error msg⟩
        ∧ ∃ cv, _create_grid_image imgs none ⟨.error msg⟩ = .ok cv) := by
  refine ⟨?_, ?_, ?_, ?_⟩
  · intro filename content_type original offset_y msg h1 h2 h3 h4
    simp [_save_uploaded_image_for_image_host, h1, h2, h3, h4]
  · intro filename content_type original img offset_y msg h1 h2 h3 h4 hn
    simp [_save_uploaded_image_for_image_host, h1, h2, h3, h4, hn]
  · intro filename content_type original decoded offset_y h1 h2 h3 h4
    cases decoded with
    | error m =>
        exact ⟨original, by
          simp [_save_uploaded_image_for_image_host, h1, h2, h3, h4]⟩
    | ok img =>
        cases hn : normalizeCard img offset_y with
        | error m =>
            exact ⟨original, by
              simp [_save_uploaded_image_for_image_host, h1, h2, h3, h4, hn]⟩
        | ok out =>
            exact ⟨out, by
              simp [_save_uploaded_image_for_image_host, h1, h2, h3, h4, hn]⟩
  · intro imgs t msg hlen ht
    have hnl : ¬ imgs.length < 2 := by omega
    refine ⟨?_, ?_⟩
    · simp [_create_grid_image, hnl, ht]
    · have hplain : _create_grid_image imgs none ⟨.error msg⟩ =
          .ok (pasteCells (.uniform 1200 628 whiteC) (imgs.take 5) (imgs.take 5).length
            (gridLayout (imgs.take 5).length).1
            (1200 / (gridLayout (imgs.take 5).length).1)
            (628 / (gridLayout (imgs.take 5).length).2) 0) := by
        simp only [_create_grid_image]
        rw [if_neg hnl]
      exact ⟨_, hplain⟩

/-- Witness for C4: a failed decode keeps the original upload with the
request succeeding, and a failed overlay keeps the plain grid. -/
theorem transform_failures_nonfatal_witness :
    _save_uploaded_image_for_image_host "x.png" "image/png" (.srcI 10 10 0)
        (.error "corrupt") none = .ok (.srcI 10 10 0)
    ∧ (_create_grid_image [.srcI 1 1 0, .srcI 1 1 1] (some "+3") ⟨.error "no font"⟩
        = _create_grid_image [.srcI 1 1 0, .srcI 1 1 1] none ⟨.error "no font"⟩
      ∧ ∃ cv, _create_grid_image [.srcI 1 1 0, .srcI 1 1 1] none ⟨.error "no font"⟩
          = .ok cv) :=
  ⟨transform_failures_nonfatal.1 "x.png" "image/png" (.srcI 10 10 0) none "corrupt"
      (by decide) (by decide) (by decide) (by decide),
    transform_failures_nonfatal.2.2.2 [.srcI 1 1 0, .srcI 1 1 1] "+3" "no font"
      (by decide) (by decide)⟩

/-- C5: for every landscape source (height < width, both positive) with a
supplied vertical offset, the crop height is `w / 1.91` truncated and
clamped to the source height, the crop window is the vertically centered
window shifted up by the offset and clamped, the window satisfies
`0 <= top` and `top + crop <= h`, and the full-width crop is resized to
exactly 1200 x 628. -/
theorem landscape_crop_safe (img : PImage) (oy : Int)
    (hh : 0 < img.height) (hl : img.height < img.width) :
    normalizeCard img (some oy) =
      .ok (.resizedI (.croppedI img 0
          (cropTopWithOffset img.height (cardCropHeight img.width img.height) oy).toNat
          img.width
          ((cropTopWithOffset img.height (cardCropHeight img.width img.height) oy)
            + (cardCropHeight img.width img.height : Int)).toNat) 1200 628)
    ∧ cardCropHeight img.width img.height
        = min ((img.width * 100) / 191) img.height
    ∧ cardCropHeight img.width img.height ≤ img.height
    ∧ cropTopWithOffset img.height (cardCropHeight img.width img.height) oy
        = max 0 (min ((img.height : Int) - (cardCropHeight img.width img.height : Int))
            (Int.tdiv ((img.height : Int) - 2 * oy
              - (cardCropHeight img.width img.height : Int)) 2))
    ∧ 0 ≤ cropTopWithOffset img.height (cardCropHeight img.width img.height) oy
    ∧ cropTopWithOffset img.height (cardCropHeight img.width img.height) oy
        + (cardCropHeight img.width img.height : Int) ≤ (img.height : Int)
    ∧ (PImage.resizedI (.croppedI img 0
          (cropTopWithOffset img.height (cardCropHeight img.width img.height) oy).toNat
          img.width
          ((cropTopWithOffset img.height (cardCropHeight img.width img.height) oy)
            + (cardCropHeight img.width img.height : Int)).toNat) 1200 628).width = 1200
    ∧ (PImage.resizedI (.croppedI img 0
          (cropTopWithOffset img.height (cardCropHeight img.width img.height) oy).toNat
          img.width
          ((cropTopWithOffset img.height (cardCropHeight img.width img.height) oy)
            + (cardCropHeight img.width img.height : Int)).toNat) 1200 628).height
        = 628 := by
  have hch : cardCropHeight img.width img.height ≤ img.height := min_le_right _ _
  have hchpos : (0 : Int) ≤ (img.height : Int) - (cardCropHeight img.width img.height : Int) := by
    have := hch
    omega
  have htople : cropTopWithOffset img.height (cardCropHeight img.width img.height) oy
      ≤ (img.height : Int) - (cardCropHeight img.width img.height : Int) :=
    max_le hchpos (min_le_left _ _)
  refine ⟨?_, rfl, hch, rfl, le_max_left 0 _, by omega, rfl, rfl⟩
  simp only [normalizeCard, cropTop]
  rw [if_neg (by omega)]

/-- Witness for C5 at a 2000 x 800 source with offset 50. -/
theorem landscape_crop_safe_witness :
    normalizeCard (.srcI 2000 800 7) (some 50) =
      .ok (.resizedI (.croppedI (.srcI 2000 800 7) 0
          (cropTopWithOffset 800 (cardCropHeight 2000 800) 50).toNat 2000
          ((cropTopWithOffset 800 (cardCropHeight 2000 800) 50)
            + (cardCropHeight 2000 800 : Int)).toNat) 1200 628)
    ∧ 0 ≤ cropTopWithOffset 800 (cardCropHeight 2000 800) 50
    ∧ cropTopWithOffset 800 (cardCropHeight 2000 800) 50
        + (cardCropHeight 2000 800 : Int) ≤ (800 : Int) :=
  ⟨(landscape_crop_safe (.srcI 2000 800 7) 50 (by decide) (by decide)).1,
    (landscape_crop_safe (.srcI 2000 800 7) 50 (by decide) (by decide)).2.2.2.2.1,
    (landscape_crop_safe (.srcI 2000 800 7) 50 (by decide) (by decide)).2.2.2.2.2.1⟩

/-- C6: normalizing a 400 x 400 source yields exactly the 1200 x 628
output made of the source scaled to 628 x 628, pasted horizontally
centered at vertical offset 0 on a solid-black canvas, with black
padding columns of width 286 on both sides. -/
theorem square_pad_exact (img : PImage) (offset_y : Option Int)
    (hw : img.width = 400) (hh : img.height = 400) :
    normalizeCard img offset_y =
      .ok (.pastedI (.uniform 1200 628 blackC) (.resizedI img 628 628) 286 0)
    ∧ (PImage.pastedI (.uniform 1200 628 blackC) (.resizedI img 628 628) 286 0).width
        = 1200
    ∧ (PImage.pastedI (.uniform 1200 628 blackC) (.resizedI img 628 628) 286 0).height
        = 628
    ∧ (∀ x y : Nat, y < 628 → (x < 286 ∨ (914 ≤ x ∧ x < 1200)) →
        (PImage.pastedI (.uniform 1200 628 blackC)
            (.resizedI img 628 628) 286 0).pixelAt x y = some blackC) := by
  refine ⟨?_, rfl, rfl, ?_⟩
  · simp only [normalizeCard, hw, hh]
    norm_num
  · intro x y hy hx
    simp only [PImage.pixelAt, PImage.width, PImage.height]
    split_ifs with h1 h2
    · exfalso
      rcases hx with h | h <;> omega
    · simp [PImage.pixelAt, h1]
    · exfalso
      rcases hx with h | h <;> omega

/-- Witness for C6 at a concrete 400 x 400 source: the exact output and
black pixels in both padding columns. -/
theorem square_pad_exact_witness :
    normalizeCard (.srcI 400 400 2) none =
      .ok (.pastedI (.uniform 1200 628 blackC)
        (.resizedI (.srcI 400 400 2) 628 628) 286 0)
    ∧ (PImage.pastedI (.uniform 1200 628 blackC)
        (.resizedI (.srcI 400 400 2) 628 628) 286 0).pixelAt 0 0 = some blackC
    ∧ (PImage.pastedI (.uniform 1200 628 blackC)
        (.resizedI (.srcI 400 400 2) 628 628) 286 0).pixelAt 1199 627 = some blackC :=
  ⟨(square_pad_exact (.srcI 400 400 2) none rfl rfl).1,
    (square_pad_exact (.srcI 400 400 2) none rfl rfl).2.2.2 0 0 (by decide) (by decide),
    (square_pad_exact (.srcI 400 400 2) none rfl rfl).2.2.2 1199 627 (by decide)
      (by decide)⟩

/-- C7: composing exactly five images places images 0-2 in row 0 at
columns 0-2 and images 3-4 in row 1 at columns 1-2, each resized to the
cell size (1200 div 3 by 628 div 2) and pasted at its cell's top-left
pixel, leaving row 1 column 0 as white background only. -/
theorem grid_five_layout (a b c d e : PImage) (env : OverlayEnv) :
    1200 / 3 = 400 ∧ 628 / 2 = 314
    ∧ _create_grid_image [a, b, c, d, e] none env =
      .ok (.pastedI (.pastedI (.pastedI (.pastedI (.pastedI (.uniform 1200 628 whiteC)
          (.resizedI a 400 314) 0 0) (.resizedI b 400 314) 400 0)
          (.resizedI c 400 314) 800 0) (.resizedI d 400 314) 400 314)
          (.resizedI e 400 314) 800 314)
    ∧ (∀ x y : Nat, x < 400 → 314 ≤ y → y < 628 →
        (PImage.pastedI (.pastedI (.pastedI (.pastedI (.pastedI
            (.uniform 1200 628 whiteC)
            (.resizedI a 400 314) 0 0) (.resizedI b 400 314) 400 0)
            (.resizedI c 400 314) 800 0) (.resizedI d 400 314) 400 314)
            (.resizedI e 400 314) 800 314).pixelAt x y = some whiteC) := by
  refine ⟨rfl, rfl, ?_, ?_⟩
  · simp [_create_grid_image, pasteCells, gridLayout, gridPos]
  · intro x y hx hy1 hy2
    simp only [PImage.pixelAt, PImage.width, PImage.height]
    split_ifs <;> first | rfl | (exfalso; omega)

/-- Witness for C7: the empty bottom-left cell of a concrete five-image
grid is white. -/
theorem grid_five_layout_witness :
    (PImage.pastedI (.pastedI (.pastedI (.pastedI (.pastedI
        (.uniform 1200 628 whiteC)
        (.resizedI (.srcI 1 1 0) 400 314) 0 0)
        (.resizedI (.srcI 1 1 1) 400 314) 400 0)
        (.resizedI (.srcI 1 1 2) 400 314) 800 0)
        (.resizedI (.srcI 1 1 3) 400 314) 400 314)
        (.resizedI (.srcI 1 1 4) 400 314) 800 314).pixelAt 0 314 = some whiteC :=
  (grid_five_layout (.srcI 1 1 0) (.srcI 1 1 1) (.srcI 1 1 2) (.srcI 1 1 3)
      (.srcI 1 1 4) ⟨.error "e"⟩).2.2.2 0 314 (by decide) (by decide) (by decide)

end App
